import Mathlib

/-!
Verification of the Anvaya club-directory backend.

This file gives a shallow embedding of the backend's data-access layer
(`app/services/crud.py`), its route handlers (`app/api/admin.py`,
`app/api/public.py`) and its error taxonomy (`app/exceptions.py`), and
proves the behavioural properties stated in the specification.

The relational store is modelled as an explicit record of rows (`Db`);
the external media host (Cloudinary) is modelled as an oracle parameter
whose `none`/`some` outcome stands for the raised exception / returned
payload of the real client; outward calls are recorded in an effect
trace so that claims of the form "no upload call is made" are statable.
-/

set_option maxRecDepth 4000

namespace Anvaya

/-! ### Data model

Modelled from the spec: the entity classes (`app/models/wing.py`,
`app/models/activity.py`, `app/models/photo.py`) are not part of the
provided sources; their field lists follow spec section 3 (DATA MODEL)
and the attribute accesses made by the provided handlers. -/

/-- A calendar date; only the `year` component is inspected by the code
under verification (`activity.activity_date.year`). -/
structure Date where
  year : Nat
  month : Nat
  day : Nat
deriving DecidableEq

/-- Modelled from the spec: a Wing row (identity, unique slug, display name). -/
structure Wing where
  id : Nat
  slug : String
  name : String
deriving DecidableEq

/-- Modelled from the spec: an Activity row. -/
structure Activity where
  id : Nat
  wing_id : Nat
  title : String
  description : String
  activity_date : Date
  faculty_coordinator : Option String
  report_url : Option String
  report_cloudinary_id : Option String
deriving DecidableEq

/-- Modelled from the spec: a Photo row. -/
structure Photo where
  id : Nat
  wing_id : Nat
  url : String
  cloudinary_id : String
  uploaded_at : Nat
deriving DecidableEq

/-! ### Error taxonomy (`app/exceptions.py`) -/

/-- The AnvayaException subclasses used by the verified handlers, carrying
the constructor arguments the source supplies. -/
inductive AnvayaError where
  | notFound (resource : String) (identifier : String)
  | validation (message : String)
  | fileUpload (message : String) (filename : String)
  | externalService (service : String) (message : String)
deriving DecidableEq

/-- `status_code` as fixed by each subclass constructor in `app/exceptions.py`. -/
def AnvayaError.status_code : AnvayaError → Nat
  | .notFound _ _ => 404
  | .validation _ => 422
  | .fileUpload _ _ => 400
  | .externalService _ _ => 502

/-- Discriminant: is this error a `FileUploadError`? -/
def AnvayaError.isFileUpload : AnvayaError → Bool
  | .fileUpload _ _ => true
  | _ => false

/-- Discriminant: is this error a `ValidationError`? -/
def AnvayaError.isValidation : AnvayaError → Bool
  | .validation _ => true
  | _ => false

/-! ### File validation helpers (`app/api/admin.py`, lines 39-73) -/

/-- `ALLOWED_IMAGE_EXTENSIONS` from `admin.py`. -/
def ALLOWED_IMAGE_EXTENSIONS : List String := [".jpg", ".jpeg", ".png", ".gif", ".webp"]

/-- `ALLOWED_PDF_EXTENSIONS` from `admin.py`. -/
def ALLOWED_PDF_EXTENSIONS : List String := [".pdf"]

/-- An uploaded multipart file; only its filename is inspected by the
validation helpers (`""` models a missing/falsy filename). -/
structure UploadFile where
  filename : String
deriving DecidableEq

/-- The part of `s` after its last `'.'` — Python `s.rsplit(".", 1)[-1]`
for a string containing a dot. -/
def afterLastDot (s : String) : String :=
  String.mk ((s.toList.reverse.takeWhile (fun c => c ≠ '.')).reverse)

/-- Python `"." in s`. -/
def hasDot (s : String) : Bool := s.toList.contains '.'

/-- Python `s.lower()`, restricted to basic-latin case mapping. For
membership in the ASCII extension sets tested below this agrees with full
Unicode lowercasing, since no non-ASCII character lowercases to a plain
letter occurring in those sets. -/
def strLower (s : String) : String := String.mk (s.toList.map Char.toLower)

/-- The `ext` computed in `validate_image_file` / `validate_pdf_file`:
`"." + filename.rsplit(".", 1)[-1].lower() if "." in filename else ""`. -/
def extOf (s : String) : String :=
  if hasDot s then "." ++ strLower (afterLastDot s) else ""

/-- Message of the image-format `FileUploadError` raised in `admin.py`. -/
def invalidImageMsg : String :=
  "Invalid image format. Allowed: .jpg, .jpeg, .png, .gif, .webp"

/-- `validate_image_file` (`admin.py` lines 50-60): empty filename raises
`ValidationError`; an extension outside the allowed image set raises
`FileUploadError`. -/
def validate_image_file (f : UploadFile) : Except AnvayaError Unit :=
  if f.filename = "" then
    .error (.validation "File must have a filename")
  else if extOf f.filename ∈ ALLOWED_IMAGE_EXTENSIONS then
    .ok ()
  else
    .error (.fileUpload invalidImageMsg f.filename)

/-- `validate_pdf_file` (`admin.py` lines 63-73). -/
def validate_pdf_file (f : UploadFile) : Except AnvayaError Unit :=
  if f.filename = "" then
    .error (.validation "File must have a filename")
  else if extOf f.filename ∈ ALLOWED_PDF_EXTENSIONS then
    .ok ()
  else
    .error (.fileUpload "Invalid file format. Only PDF files are allowed." f.filename)

/-! ### The relational store (`app/services/crud.py`)

The store is a record of row lists; each operation returns its result
together with the post-commit store, so "commit" is the returned state and
"rollback" is returning the input state unchanged. -/

/-- The database state. `next_photo_id` models the photo id sequence and
`clock` the store's timestamp source (Modelled from the spec: `uploaded_at`
is a creation timestamp assigned by the store on insert). -/
structure Db where
  wings : List Wing
  activities : List Activity
  photos : List Photo
  next_photo_id : Nat
  clock : Nat
deriving DecidableEq

/-- A value assignable to a model attribute via `setattr`; `optStr` carries
the `None`-able string fields. -/
inductive FieldValue where
  | str (s : String)
  | optStr (s : Option String)
  | date (d : Date)
  | nat (n : Nat)
deriving DecidableEq

/-- Modelled from the spec: the attribute names of the `Activity` model
(spec section 3), used by the `hasattr` check in `update_activity`. -/
def activityAttrs : List String :=
  ["id", "wing_id", "title", "description", "activity_date",
   "faculty_coordinator", "report_url", "report_cloudinary_id"]

/-- Python `hasattr(activity, key)`. -/
def hasattrActivity (key : String) : Bool := activityAttrs.contains key

/-- Python `setattr(activity, key, value)`. The Python call is untyped; in
this typed embedding a value whose shape does not fit the attribute leaves
the record unchanged (the handlers never produce such a pair). A plain
string assigned to a `None`-able attribute is stored as `some`. -/
def setattrActivity (a : Activity) (key : String) (v : FieldValue) : Activity :=
  match key, v with
  | "id", .nat n => { a with id := n }
  | "wing_id", .nat n => { a with wing_id := n }
  | "title", .str s => { a with title := s }
  | "description", .str s => { a with description := s }
  | "activity_date", .date d => { a with activity_date := d }
  | "faculty_coordinator", .str s => { a with faculty_coordinator := some s }
  | "faculty_coordinator", .optStr s => { a with faculty_coordinator := s }
  | "report_url", .str s => { a with report_url := some s }
  | "report_url", .optStr s => { a with report_url := s }
  | "report_cloudinary_id", .str s => { a with report_cloudinary_id := some s }
  | "report_cloudinary_id", .optStr s => { a with report_cloudinary_id := s }
  | _, _ => a

/-- Python `getattr(activity, key)` for the model attributes, used to state
per-field frame properties uniformly. -/
def getattrActivity (a : Activity) (key : String) : Option FieldValue :=
  match key with
  | "id" => some (.nat a.id)
  | "wing_id" => some (.nat a.wing_id)
  | "title" => some (.str a.title)
  | "description" => some (.str a.description)
  | "activity_date" => some (.date a.activity_date)
  | "faculty_coordinator" => some (.optStr a.faculty_coordinator)
  | "report_url" => some (.optStr a.report_url)
  | "report_cloudinary_id" => some (.optStr a.report_cloudinary_id)
  | _ => none

/-- The `for key, value in update_data.items(): if hasattr ...: setattr ...`
loop of `CRUDService.update_activity`; the dict is an insertion-ordered
association list. -/
def applyUpdateData (a : Activity) (update_data : List (String × FieldValue)) : Activity :=
  update_data.foldl
    (fun acc kv => if hasattrActivity kv.1 then setattrActivity acc kv.1 kv.2 else acc) a

namespace CRUDService

/-- `CRUDService.get_wing_by_id`. -/
def get_wing_by_id (db : Db) (wing_id : Nat) : Option Wing :=
  db.wings.find? (fun w => w.id == wing_id)

/-- `CRUDService.get_wing_by_slug`. -/
def get_wing_by_slug (db : Db) (slug : String) : Option Wing :=
  db.wings.find? (fun w => w.slug == slug)

/-- `CRUDService.get_activity_by_id`. -/
def get_activity_by_id (db : Db) (activity_id : Nat) : Option Activity :=
  db.activities.find? (fun a => a.id == activity_id)

/-- `CRUDService.get_photo_by_id`. -/
def get_photo_by_id (db : Db) (photo_id : Nat) : Option Photo :=
  db.photos.find? (fun p => p.id == photo_id)

/-- `CRUDService.update_activity` (`crud.py` lines 198-231): look the row up,
return `None` when absent, otherwise apply the provided fields (unknown keys
skipped by the `hasattr` guard) and commit. -/
def update_activity (db : Db) (activity_id : Nat)
    (update_data : List (String × FieldValue)) : Option Activity × Db :=
  match get_activity_by_id db activity_id with
  | none => (none, db)
  | some activity =>
    let updated := applyUpdateData activity update_data
    (some updated,
      { db with
          activities := db.activities.map (fun x => if x.id == activity_id then updated else x) })

/-- `CRUDService.delete_activity` (`crud.py` lines 233-260): SQL
`DELETE WHERE id = activity_id`; the boolean is `rowcount > 0`. -/
def delete_activity (db : Db) (activity_id : Nat) : Bool × Db :=
  let rowcount := (db.activities.filter (fun a => a.id == activity_id)).length
  (decide (0 < rowcount),
    { db with activities := db.activities.filter (fun a => !(a.id == activity_id)) })

/-- `CRUDService.delete_photo` (`crud.py` lines 432-459). -/
def delete_photo (db : Db) (photo_id : Nat) : Bool × Db :=
  let rowcount := (db.photos.filter (fun p => p.id == photo_id)).length
  (decide (0 < rowcount),
    { db with photos := db.photos.filter (fun p => !(p.id == photo_id)) })

/-- `CRUDService.create_photos_bulk` (`crud.py` lines 403-430): insert all
rows in one transaction; the store assigns sequential ids and the
`uploaded_at` default. -/
def create_photos_bulk (db : Db) (photos : List Photo) : List Photo × Db :=
  let assigned := photos.enum.map
    (fun p => { p.2 with id := db.next_photo_id + p.1, uploaded_at := db.clock })
  (assigned,
    { db with
        photos := db.photos ++ assigned,
        next_photo_id := db.next_photo_id + photos.length })

/-- `CRUDService.get_photos_by_wing` (`crud.py` lines 310-336): the wing's
photos ordered by `uploaded_at` descending (a stable sort models the SQL
ordering), then SQL `OFFSET`/`LIMIT`. -/
def get_photos_by_wing (db : Db) (wing_id : Nat) (limit : Nat) (offset : Nat) : List Photo :=
  ((((db.photos.filter (fun p => p.wing_id == wing_id)).insertionSort
      (fun a b => b.uploaded_at ≤ a.uploaded_at)).drop offset).take limit)

end CRUDService

/-! ### Statistics aggregation (`app/api/public.py`, `get_activity_statistics`)

The handler receives every activity joined with its owning wing and folds
once over the list, maintaining the insertion-ordered dict
`wing_stats : wing.id ↦ {name, slug, count}` and the set of all years; the
year filter is applied with `continue` before the dict is touched, and
after the loop the dict is listed and stably sorted by count descending. -/

/-- One `wing_stats` dict entry. -/
structure WingStat where
  wing_id : Nat
  name : String
  slug : String
  count : Nat
deriving DecidableEq

/-- One element of the returned `statistics` list. -/
structure StatEntry where
  wing_id : Nat
  wing_name : String
  wing_slug : String
  activity_count : Nat
deriving DecidableEq

/-- The response dict of `get_activity_statistics`. -/
structure StatsResponse where
  statistics : List StatEntry
  available_years : List Nat
  filtered_year : Option Nat
deriving DecidableEq

/-- The loop body's effect on the insertion-ordered `wing_stats` dict:
`wing_stats[wing.id]["name"] = ...; ["slug"] = ...; ["count"] += 1`.
A fresh key is appended at the end with count 1 (the defaultdict starts it
at 0); an existing key is updated in place. -/
def bumpWing (ws : List WingStat) (w : Wing) : List WingStat :=
  match ws with
  | [] => [⟨w.id, w.name, w.slug, 1⟩]
  | r :: rs =>
    if r.wing_id == w.id then ⟨w.id, w.name, w.slug, r.count + 1⟩ :: rs
    else r :: bumpWing rs w

/-- `years_set.add(activity_year)` on a set modelled as a duplicate-free
list. -/
def insertYear (ys : List Nat) (y : Nat) : List Nat :=
  if y ∈ ys then ys else ys ++ [y]

/-- Negation of the loop's `if year is not None and activity_year != year:
continue` guard: the activity survives the optional year filter. -/
def matchesYear (year? : Option Nat) (a : Activity) : Bool :=
  match year? with
  | some yr => a.activity_date.year == yr
  | none => true

/-- One iteration of the statistics loop: the year set is extended before
the filter guard; the dict is bumped only for surviving activities. -/
def statsStep (year? : Option Nat) (acc : List WingStat × List Nat)
    (p : Activity × Wing) : List WingStat × List Nat :=
  let years := insertYear acc.2 p.1.activity_date.year
  if matchesYear year? p.1 then (bumpWing acc.1 p.2, years) else (acc.1, years)

/-- Listing a `wing_stats` entry into the response shape. -/
def toStatEntry (r : WingStat) : StatEntry := ⟨r.wing_id, r.name, r.slug, r.count⟩

/-- Descending-count comparison used by `statistics.sort(key=..., reverse=True)`. -/
def statDescOrder (a b : StatEntry) : Prop := b.activity_count ≤ a.activity_count

/-- Descending comparison used by `sorted(list(years_set), reverse=True)`. -/
def natDescOrder (a b : Nat) : Prop := b ≤ a

instance : DecidableRel statDescOrder := fun _ _ => Nat.decLe _ _

instance : DecidableRel natDescOrder := fun _ _ => Nat.decLe _ _

instance : IsTotal StatEntry statDescOrder :=
  ⟨fun a b => Nat.le_total b.activity_count a.activity_count⟩

instance : IsTrans StatEntry statDescOrder :=
  ⟨fun _ _ _ hab hbc => Nat.le_trans hbc hab⟩

instance : IsTotal Nat natDescOrder := ⟨fun a b => Nat.le_total b a⟩

instance : IsTrans Nat natDescOrder := ⟨fun _ _ _ hab hbc => Nat.le_trans hbc hab⟩

/-- `get_activity_statistics` (`public.py` lines 176-236) as a function of
the joined `(activity, wing)` rows; Python's stable `list.sort` /
`sorted(..., reverse=True)` are modelled by the stable insertion sort. -/
def get_activity_statistics (year? : Option Nat)
    (activities_with_wings : List (Activity × Wing)) : StatsResponse :=
  let acc := activities_with_wings.foldl (statsStep year?) ([], [])
  { statistics := (acc.1.map toStatEntry).insertionSort statDescOrder
    available_years := acc.2.insertionSort natDescOrder
    filtered_year := year? }

/-- Count stored in `wing_stats` under key `i` (0 when the key is absent). -/
def countOf (ws : List WingStat) (i : Nat) : Nat :=
  match ws with
  | [] => 0
  | r :: rs => if r.wing_id = i then r.count else countOf rs i

/-- Number of joined rows owned by wing id `i` that survive the year filter. -/
def matchingCount (year? : Option Nat) (pairs : List (Activity × Wing)) (i : Nat) : Nat :=
  (pairs.filter (fun p => p.2.id == i && matchesYear year? p.1)).length

/-! ### Route handlers (`app/api/admin.py`, `app/api/public.py`)

Each handler returns its HTTP outcome together with the post-request store
and a trace of the outward calls it made (media-host uploads/deletes and
store mutations), so that "no call was made / nothing was persisted"
properties are statable. The Cloudinary client is an oracle parameter:
`none` models the client raising, `some` its returned payload. -/

/-- An outward call made by a handler. -/
inductive Effect where
  | uploadImagesBulk (filenames : List String) (folder : String)
  | uploadPdf (filename : String) (folder : String)
  | deleteMedia (public_id : String) (resource_kind : String)
  | dbCreatePhotosBulk (n : Nat)
  | dbDeletePhoto (photo_id : Nat)
  | dbUpdateActivity (activity_id : Nat) (fields : List String)
deriving DecidableEq

/-- Payload returned by a successful Cloudinary upload. -/
structure UploadResult where
  url : String
  public_id : String
deriving DecidableEq

/-- Outcome of a handler: HTTP result, post-request store, call trace. -/
structure HandlerResult (α : Type) where
  result : Except AnvayaError α
  db : Db
  effects : List Effect

/-- Does a file pass `validate_image_file`? -/
def imageOk (f : UploadFile) : Bool :=
  decide (f.filename ≠ "") && decide (extOf f.filename ∈ ALLOWED_IMAGE_EXTENSIONS)

/-- The error `validate_image_file` raises for an invalid file. -/
def imageError (f : UploadFile) : AnvayaError :=
  if f.filename = "" then .validation "File must have a filename"
  else .fileUpload invalidImageMsg f.filename

namespace AdminAPI

/-- The `for file in files: validate_image_file(file)` loop of
`upload_photos`: stops at the first invalid file. -/
def validate_all_images : List UploadFile → Except AnvayaError Unit
  | [] => .ok ()
  | f :: rest =>
    match validate_image_file f with
    | .error e => .error e
    | .ok () => validate_all_images rest

/-- `upload_photos` (`admin.py` lines 110-164): wing existence check, then
validation of every file, then one bulk upload call, then one bulk insert. -/
def upload_photos (db : Db) (wing_id : Nat) (files : List UploadFile)
    (upload_images_bulk : List UploadFile → String → Option (List UploadResult)) :
    HandlerResult (List Photo) :=
  match CRUDService.get_wing_by_id db wing_id with
  | none => ⟨.error (.notFound "Wing" (toString wing_id)), db, []⟩
  | some wing =>
    match validate_all_images files with
    | .error e => ⟨.error e, db, []⟩
    | .ok () =>
      match upload_images_bulk files ("anvaya/" ++ wing.slug) with
      | none =>
        ⟨.error (.externalService "Cloudinary" "Failed to upload images"), db,
          [.uploadImagesBulk (files.map UploadFile.filename) ("anvaya/" ++ wing.slug)]⟩
      | some uploaded_files =>
        let photos := uploaded_files.map
          (fun u => (⟨0, wing_id, u.url, u.public_id, 0⟩ : Photo))
        let cp := CRUDService.create_photos_bulk db photos
        ⟨.ok cp.1, cp.2,
          [.uploadImagesBulk (files.map UploadFile.filename) ("anvaya/" ++ wing.slug),
            .dbCreatePhotosBulk photos.length]⟩

/-- `delete_photo` (`admin.py` lines 167-200): the Cloudinary deletion is
best-effort — its outcome `_delete_media_ok` influences nothing. -/
def delete_photo (db : Db) (photo_id : Nat) (_delete_media_ok : Bool) :
    HandlerResult String :=
  match CRUDService.get_photo_by_id db photo_id with
  | none => ⟨.error (.notFound "Photo" (toString photo_id)), db, []⟩
  | some photo =>
    let dp := CRUDService.delete_photo db photo_id
    ⟨.ok "Photo deleted successfully", dp.2,
      [.deleteMedia photo.cloudinary_id "image", .dbDeletePhoto photo_id]⟩

/-- Folder for a replacement report PDF (`admin.py` lines 335-336). -/
def pdf_folder (db : Db) (a : Activity) : String :=
  match CRUDService.get_wing_by_id db a.wing_id with
  | some wing => "anvaya/" ++ wing.slug ++ "/reports"
  | none => "anvaya/reports"

/-- Final step of the update handler: persist `update_data` through
`CRUDService.update_activity` and return the updated record. -/
def commitActivityUpdate (db : Db) (activity_id : Nat)
    (ud : List (String × FieldValue)) (effs : List Effect) : HandlerResult Activity :=
  let r := CRUDService.update_activity db activity_id ud
  match r.1 with
  | some updated =>
    ⟨.ok updated, r.2, effs ++ [.dbUpdateActivity activity_id (ud.map Prod.fst)]⟩
  | none => ⟨.error (.notFound "Activity" (toString activity_id)), r.2, effs⟩

/-- `update_activity` handler (`admin.py` lines 275-348): existence check;
`update_data` built from exactly the supplied form fields (strings
stripped, falsy `faculty_coordinator` stored as `None`); optional
replacement PDF validated, old asset deleted best-effort, new one uploaded
— an upload failure aborts before `CRUDService.update_activity` is called. -/
def update_activity (db : Db) (activity_id : Nat)
    (title description : Option String) (activity_date : Option Date)
    (faculty_coordinator : Option String) (report_file : Option UploadFile)
    (upload_pdf : UploadFile → String → Option UploadResult)
    (_delete_media_ok : Bool) : HandlerResult Activity :=
  match CRUDService.get_activity_by_id db activity_id with
  | none => ⟨.error (.notFound "Activity" (toString activity_id)), db, []⟩
  | some activity =>
    let update_data : List (String × FieldValue) :=
      (match title with
        | some t => [("title", FieldValue.str t.trim)]
        | none => [])
      ++ (match description with
        | some d => [("description", FieldValue.str d.trim)]
        | none => [])
      ++ (match activity_date with
        | some d => [("activity_date", FieldValue.date d)]
        | none => [])
      ++ (match faculty_coordinator with
        | some fc =>
          [("faculty_coordinator",
            if fc = "" then FieldValue.optStr none else FieldValue.str fc.trim)]
        | none => [])
    match report_file with
    | some f =>
      if f.filename = "" then
        commitActivityUpdate db activity_id update_data []
      else
        match validate_pdf_file f with
        | .error e => ⟨.error e, db, []⟩
        | .ok () =>
          let delEff : List Effect :=
            match activity.report_cloudinary_id with
            | some cid => [.deleteMedia cid "raw"]
            | none => []
          match upload_pdf f (pdf_folder db activity) with
          | none =>
            ⟨.error (.externalService "Cloudinary" "Failed to upload PDF report"), db,
              delEff ++ [.uploadPdf f.filename (pdf_folder db activity)]⟩
          | some u =>
            commitActivityUpdate db activity_id
              (update_data ++
                [("report_url", FieldValue.str u.url),
                  ("report_cloudinary_id", FieldValue.str u.public_id)])
              (delEff ++ [.uploadPdf f.filename (pdf_folder db activity)])
    | none => commitActivityUpdate db activity_id update_data []

end AdminAPI

namespace PublicAPI

/-- `get_wing_photos` (`public.py` lines 67-96): the framework validates the
`limit`/`offset` query parameters against `ge=1, le=500` / `ge=0` (defaults
100 / 0) before the handler body runs; the handler then resolves the wing
and pages its photos. -/
def get_wing_photos (db : Db) (slug : String) (limit offset : Option Int) :
    Except AnvayaError (List Photo) :=
  let l := limit.getD 100
  let o := offset.getD 0
  if l < 1 ∨ 500 < l then .error (.validation "limit out of range")
  else if o < 0 then .error (.validation "offset out of range")
  else
    match CRUDService.get_wing_by_slug db slug with
    | none => .error (.notFound "Wing" slug)
    | some wing => .ok (CRUDService.get_photos_by_wing db wing.id l.toNat o.toNat)

end PublicAPI

/-- C9: `validate_image_file` accepts a file iff its filename is non-empty and
its extension (the final dot-separated suffix, lowercased, dot-prefixed; `""`
when no dot occurs) lies in the allowed image set; matching is
case-insensitive (`"pic.JPG"` is accepted); a non-empty filename without a
dot is rejected with a `FileUploadError` (status 400); an empty filename is
rejected with a `ValidationError` (status 422), not a `FileUploadError`. -/
theorem validate_image_file_spec (f : UploadFile) :
    (validate_image_file f = .ok () ↔
      f.filename ≠ "" ∧ extOf f.filename ∈ ALLOWED_IMAGE_EXTENSIONS)
    ∧ (f.filename ≠ "" → hasDot f.filename = false →
        validate_image_file f = .error (.fileUpload invalidImageMsg f.filename)
        ∧ (AnvayaError.fileUpload invalidImageMsg f.filename).status_code = 400)
    ∧ (f.filename = "" →
        validate_image_file f = .error (.validation "File must have a filename")
        ∧ (AnvayaError.validation "File must have a filename").status_code = 422
        ∧ (AnvayaError.validation "File must have a filename").isFileUpload = false)
    ∧ validate_image_file ⟨"pic.JPG"⟩ = .ok () := by
  refine ⟨?_, ?_, ?_, rfl⟩
  · unfold validate_image_file
    split
    · next h => simp [h]
    · next h =>
      split
      · next hmem => simp [h, hmem]
      · next hmem => simp [h, hmem]
  · intro h hdot
    have hext : extOf f.filename = "" := by simp [extOf, hdot]
    constructor
    · unfold validate_image_file
      rw [if_neg h, hext]
      simp [ALLOWED_IMAGE_EXTENSIONS]
    · rfl
  · intro h
    refine ⟨?_, rfl, rfl⟩
    unfold validate_image_file
    rw [if_pos h]

/-- Witness for `validate_image_file_spec`: at `filename = "photo"` (no dot),
the file is rejected with a 400 `FileUploadError`. -/
theorem validate_image_file_spec_witness :
    validate_image_file ⟨"photo"⟩ = .error (.fileUpload invalidImageMsg "photo")
    ∧ (AnvayaError.fileUpload invalidImageMsg "photo").status_code = 400 :=
  (validate_image_file_spec ⟨"photo"⟩).2.1 (by decide) (by decide)

/-! ### Frame properties of the partial-update loop -/

/-- `setattr` with key `k` leaves every attribute named differently unchanged. -/
theorem getattr_setattr_ne (a : Activity) (k k' : String) (v : FieldValue)
    (h : k' ≠ k) :
    getattrActivity (setattrActivity a k v) k' = getattrActivity a k' := by
  unfold setattrActivity
  split <;> (try rfl) <;> (unfold getattrActivity; split <;> simp_all)

/-- Unfolding step of the update loop. -/
theorem applyUpdateData_cons (a : Activity) (kv : String × FieldValue)
    (rest : List (String × FieldValue)) :
    applyUpdateData a (kv :: rest) =
      applyUpdateData (if hasattrActivity kv.1 then setattrActivity a kv.1 kv.2 else a) rest :=
  rfl

/-- Any attribute whose name is keyed by no entry of `update_data` keeps its
prior value. -/
theorem applyUpdateData_frame (ud : List (String × FieldValue)) (k : String)
    (h : ∀ kv ∈ ud, kv.1 ≠ k) (a : Activity) :
    getattrActivity (applyUpdateData a ud) k = getattrActivity a k := by
  induction ud generalizing a with
  | nil => rfl
  | cons kv rest ih =>
    rw [applyUpdateData_cons,
      ih (fun x hx => h x (List.mem_cons_of_mem _ hx))]
    by_cases hattr : hasattrActivity kv.1
    · rw [if_pos hattr, getattr_setattr_ne _ _ _ _ (Ne.symm (h kv (List.mem_cons_self _ _)))]
    · rw [if_neg hattr]

/-- A mapping all of whose keys fail the `hasattr` check is a no-op. -/
theorem applyUpdateData_unknown_keys (ud : List (String × FieldValue))
    (h : ∀ kv ∈ ud, hasattrActivity kv.1 = false) (a : Activity) :
    applyUpdateData a ud = a := by
  induction ud with
  | nil => rfl
  | cons kv rest ih =>
    rw [applyUpdateData_cons, if_neg (by simp [h kv (List.mem_cons_self _ _)])]
    exact ih (fun x hx => h x (List.mem_cons_of_mem _ hx))

/-- C2: `update_activity` returns the not-found sentinel with the store
untouched when the id is absent; otherwise it returns the row with exactly
the supplied fields applied: every attribute keyed by no entry keeps its
prior value, a mapping of unknown-only keys is silently ignored, and
supplying only `title` changes `title` alone. -/
theorem update_activity_partial_update (db : Db) (activity_id : Nat)
    (ud : List (String × FieldValue)) :
    (CRUDService.get_activity_by_id db activity_id = none →
      CRUDService.update_activity db activity_id ud = (none, db))
    ∧ (∀ a, CRUDService.get_activity_by_id db activity_id = some a →
        (CRUDService.update_activity db activity_id ud).1 = some (applyUpdateData a ud))
    ∧ (∀ a k, (∀ kv ∈ ud, kv.1 ≠ k) →
        getattrActivity (applyUpdateData a ud) k = getattrActivity a k)
    ∧ (∀ a, (∀ kv ∈ ud, hasattrActivity kv.1 = false) → applyUpdateData a ud = a)
    ∧ (∀ (a : Activity) (t : String),
        applyUpdateData a [("title", FieldValue.str t)] = { a with title := t }) := by
  refine ⟨fun h => ?_, fun a h => ?_, fun a k h => applyUpdateData_frame ud k h a,
    fun a h => applyUpdateData_unknown_keys ud h a, fun a t => rfl⟩
  · simp [CRUDService.update_activity, h]
  · simp [CRUDService.update_activity, h]

/-- Witness for `update_activity_partial_update`: a store holding one
activity, updated with a `title` entry, an unknown `"bogus"` key and nothing
else, keeps its `description` (and the update on a missing id 7 is a
sentinel no-op). -/
theorem update_activity_partial_update_witness :
    (CRUDService.update_activity
        ⟨[], [⟨1, 1, "Old", "Desc", ⟨2024, 1, 1⟩, none, none, none⟩], [], 1, 0⟩ 1
        [("title", FieldValue.str "New"), ("bogus", FieldValue.str "x")]).1 =
      some (applyUpdateData ⟨1, 1, "Old", "Desc", ⟨2024, 1, 1⟩, none, none, none⟩
        [("title", FieldValue.str "New"), ("bogus", FieldValue.str "x")])
    ∧ getattrActivity
        (applyUpdateData ⟨1, 1, "Old", "Desc", ⟨2024, 1, 1⟩, none, none, none⟩
          [("title", FieldValue.str "New"), ("bogus", FieldValue.str "x")]) "description" =
      getattrActivity (⟨1, 1, "Old", "Desc", ⟨2024, 1, 1⟩, none, none, none⟩ : Activity)
        "description"
    ∧ CRUDService.update_activity
        ⟨[], [⟨1, 1, "Old", "Desc", ⟨2024, 1, 1⟩, none, none, none⟩], [], 1, 0⟩ 7
        [("title", FieldValue.str "New")] =
      (none, ⟨[], [⟨1, 1, "Old", "Desc", ⟨2024, 1, 1⟩, none, none, none⟩], [], 1, 0⟩) :=
  ⟨(update_activity_partial_update _ 1 _).2.1 _ (by decide),
    (update_activity_partial_update
      ⟨[], [⟨1, 1, "Old", "Desc", ⟨2024, 1, 1⟩, none, none, none⟩], [], 1, 0⟩ 1 _).2.2.1 _
      "description" (by decide),
    (update_activity_partial_update _ 7 _).1 (by decide)⟩

/-- C7: each data-access delete returns `true` exactly when a row with the
given id existed (and removes precisely those rows), and returns `false`
with the store unchanged — rather than raising — when the id is absent. -/
theorem delete_returns_row_existence (db : Db) (id : Nat) :
    ((CRUDService.delete_activity db id).1 = true ↔ ∃ a ∈ db.activities, a.id = id)
    ∧ ((CRUDService.delete_activity db id).1 = false →
        (CRUDService.delete_activity db id).2 = db)
    ∧ (∀ a ∈ (CRUDService.delete_activity db id).2.activities, a.id ≠ id)
    ∧ (∀ a ∈ db.activities, a.id ≠ id →
        a ∈ (CRUDService.delete_activity db id).2.activities)
    ∧ ((CRUDService.delete_photo db id).1 = true ↔ ∃ p ∈ db.photos, p.id = id)
    ∧ ((CRUDService.delete_photo db id).1 = false →
        (CRUDService.delete_photo db id).2 = db)
    ∧ (∀ p ∈ (CRUDService.delete_photo db id).2.photos, p.id ≠ id)
    ∧ (∀ p ∈ db.photos, p.id ≠ id → p ∈ (CRUDService.delete_photo db id).2.photos) := by
  refine ⟨?_, ?_, ?_, ?_, ?_, ?_, ?_, ?_⟩
  · simp [CRUDService.delete_activity, List.length_pos, List.filter_eq_nil_iff]
  · intro h
    have hall : ∀ a ∈ db.activities, ¬(a.id = id) := by
      simpa [CRUDService.delete_activity, List.length_pos, List.filter_eq_nil_iff] using h
    simp only [CRUDService.delete_activity]
    have : db.activities.filter (fun a => !(a.id == id)) = db.activities :=
      List.filter_eq_self.mpr (fun a ha => by simpa using hall a ha)
    rw [this]
  · intro a ha
    have := (List.mem_filter.mp ha).2
    simpa using this
  · intro a ha hne
    exact List.mem_filter.mpr ⟨ha, by simpa using hne⟩
  · simp [CRUDService.delete_photo, List.length_pos, List.filter_eq_nil_iff]
  · intro h
    have hall : ∀ p ∈ db.photos, ¬(p.id = id) := by
      simpa [CRUDService.delete_photo, List.length_pos, List.filter_eq_nil_iff] using h
    simp only [CRUDService.delete_photo]
    have : db.photos.filter (fun p => !(p.id == id)) = db.photos :=
      List.filter_eq_self.mpr (fun p hp => by simpa using hall p hp)
    rw [this]
  · intro p hp
    have := (List.mem_filter.mp hp).2
    simpa using this
  · intro p hp hne
    exact List.mem_filter.mpr ⟨hp, by simpa using hne⟩

/-- Witness for `delete_returns_row_existence`: deleting the only activity
row of a one-row store returns `true`; deleting an absent photo id returns
`false` and leaves the store unchanged. -/
theorem delete_returns_row_existence_witness :
    (CRUDService.delete_activity
        ⟨[], [⟨1, 1, "T", "D", ⟨2024, 1, 1⟩, none, none, none⟩], [], 1, 0⟩ 1).1 = true
    ∧ (CRUDService.delete_photo
        ⟨[], [], [⟨5, 1, "u", "c", 0⟩], 6, 0⟩ 9).2 = ⟨[], [], [⟨5, 1, "u", "c", 0⟩], 6, 0⟩ :=
  ⟨(delete_returns_row_existence
      ⟨[], [⟨1, 1, "T", "D", ⟨2024, 1, 1⟩, none, none, none⟩], [], 1, 0⟩ 1).1.mpr
      ⟨⟨1, 1, "T", "D", ⟨2024, 1, 1⟩, none, none, none⟩, by decide, rfl⟩,
    (delete_returns_row_existence ⟨[], [], [⟨5, 1, "u", "c", 0⟩], 6, 0⟩ 9).2.2.2.2.2.1
      (by decide)⟩

theorem statsStep_fst (year? : Option Nat) (acc : List WingStat × List Nat)
    (p : Activity × Wing) :
    (statsStep year? acc p).1 =
      if matchesYear year? p.1 then bumpWing acc.1 p.2 else acc.1 := by
  simp only [statsStep]
  split <;> rfl

theorem statsStep_snd (year? : Option Nat) (acc : List WingStat × List Nat)
    (p : Activity × Wing) :
    (statsStep year? acc p).2 = insertYear acc.2 p.1.activity_date.year := by
  simp only [statsStep]
  split <;> rfl

theorem bumpWing_countOf (ws : List WingStat) (w : Wing) (i : Nat) :
    countOf (bumpWing ws w) i = countOf ws i + (if i = w.id then 1 else 0) := by
  induction ws with
  | nil =>
    by_cases h : i = w.id
    · subst h; simp [bumpWing, countOf]
    · have h' : ¬(w.id = i) := fun hh => h hh.symm
      simp [bumpWing, countOf, h, h']
  | cons r rs ih =>
    by_cases hrw : r.wing_id = w.id
    · by_cases hi : i = w.id
      · subst hi; simp [bumpWing, countOf, hrw]
      · have h1 : ¬(w.id = i) := fun hh => hi hh.symm
        have h2 : ¬(r.wing_id = i) := hrw ▸ h1
        simp [bumpWing, countOf, hrw, h1, h2, hi]
    · by_cases hri : r.wing_id = i
      · have h1 : ¬(i = w.id) := fun hh => hrw (hri.trans hh)
        simp [bumpWing, countOf, hrw, hri, h1]
      · simp [bumpWing, countOf, hrw, hri, ih]

theorem bumpWing_keys (ws : List WingStat) (w : Wing) :
    (bumpWing ws w).map WingStat.wing_id =
      if w.id ∈ ws.map WingStat.wing_id then ws.map WingStat.wing_id
      else ws.map WingStat.wing_id ++ [w.id] := by
  induction ws with
  | nil => simp [bumpWing]
  | cons r rs ih =>
    by_cases hrw : r.wing_id = w.id
    · simp [bumpWing, hrw]
    · have h1 : ¬(w.id = r.wing_id) := fun hh => hrw hh.symm
      by_cases hmem : w.id ∈ rs.map WingStat.wing_id
      · simp [bumpWing, hrw, ih, hmem, h1]
      · simp [bumpWing, hrw, ih, hmem, h1]

theorem bumpWing_keys_nodup (ws : List WingStat) (w : Wing)
    (h : (ws.map WingStat.wing_id).Nodup) :
    ((bumpWing ws w).map WingStat.wing_id).Nodup := by
  rw [bumpWing_keys]
  split
  · exact h
  · next hmem =>
    rw [List.nodup_append]
    refine ⟨h, List.nodup_singleton _, ?_⟩
    intro x hx hx2
    have hxw : x = w.id := by simpa using hx2
    exact hmem (hxw ▸ hx)

theorem bumpWing_mem_keys (ws : List WingStat) (w : Wing) (i : Nat) :
    i ∈ (bumpWing ws w).map WingStat.wing_id ↔
      i = w.id ∨ i ∈ ws.map WingStat.wing_id := by
  rw [bumpWing_keys]
  split
  · next hmem =>
    constructor
    · exact Or.inr
    · rintro (rfl | h)
      · exact hmem
      · exact h
  · simp [List.mem_append, or_comm]

theorem bumpWing_mem_src (ws : List WingStat) (w : Wing) (r : WingStat)
    (h : r ∈ bumpWing ws w) :
    r ∈ ws ∨ (r.wing_id = w.id ∧ r.name = w.name ∧ r.slug = w.slug) := by
  induction ws with
  | nil =>
    simp [bumpWing] at h
    subst h
    exact Or.inr ⟨rfl, rfl, rfl⟩
  | cons x rs ih =>
    by_cases hxw : x.wing_id = w.id
    · simp only [bumpWing, hxw, if_pos, beq_self_eq_true, List.mem_cons] at h
      rcases h with h | h
      · subst h; exact Or.inr ⟨rfl, rfl, rfl⟩
      · exact Or.inl (List.mem_cons_of_mem _ h)
    · have hb : (x.wing_id == w.id) = false := by simpa using hxw
      simp only [bumpWing, hb, Bool.false_eq_true, if_false, List.mem_cons] at h
      rcases h with h | h
      · exact Or.inl (h ▸ List.mem_cons_self _ _)
      · rcases ih h with h' | h'
        · exact Or.inl (List.mem_cons_of_mem _ h')
        · exact Or.inr h'

theorem countOf_mem (ws : List WingStat) (hnd : (ws.map WingStat.wing_id).Nodup)
    (r : WingStat) (hr : r ∈ ws) : r.count = countOf ws r.wing_id := by
  induction ws with
  | nil => cases hr
  | cons x rs ih =>
    have hnd' : x.wing_id ∉ rs.map WingStat.wing_id ∧ (rs.map WingStat.wing_id).Nodup := by
      rw [List.map_cons, List.nodup_cons] at hnd
      exact hnd
    rcases List.mem_cons.mp hr with rfl | hr'
    · simp [countOf]
    · have hmem : r.wing_id ∈ rs.map WingStat.wing_id := List.mem_map_of_mem _ hr'
      have hx : ¬(x.wing_id = r.wing_id) := fun he => hnd'.1 (he ▸ hmem)
      simp only [countOf, hx, if_false]
      exact ih hnd'.2 hr'

theorem matchingCount_cons (year? : Option Nat) (p : Activity × Wing)
    (ps : List (Activity × Wing)) (i : Nat) :
    matchingCount year? (p :: ps) i =
      matchingCount year? ps i +
        (if p.2.id = i ∧ matchesYear year? p.1 = true then 1 else 0) := by
  simp only [matchingCount, List.filter_cons]
  by_cases h : (p.2.id == i && matchesYear year? p.1) = true
  · have h' : p.2.id = i ∧ matchesYear year? p.1 = true := by simpa using h
    simp [h, h', Nat.add_comm]
  · have h' : ¬(p.2.id = i ∧ matchesYear year? p.1 = true) := by simpa using h
    simp [h, h']

theorem stats_foldl_countOf (year? : Option Nat) (ps : List (Activity × Wing)) :
    ∀ (acc : List WingStat × List Nat) (i : Nat),
      countOf (ps.foldl (statsStep year?) acc).1 i =
        countOf acc.1 i + matchingCount year? ps i := by
  induction ps with
  | nil => intro acc i; simp [matchingCount]
  | cons p ps ih =>
    intro acc i
    rw [List.foldl_cons, ih, matchingCount_cons, statsStep_fst]
    by_cases hmy : matchesYear year? p.1
    · rw [if_pos hmy, bumpWing_countOf]
      by_cases hpi : p.2.id = i
      · have : i = p.2.id := hpi.symm
        simp [this, hmy]
        omega
      · have h1 : ¬(i = p.2.id) := fun hh => hpi hh.symm
        simp [h1, hpi]
    · rw [if_neg hmy]
      simp [hmy]

theorem stats_foldl_mem_keys (year? : Option Nat) (ps : List (Activity × Wing)) :
    ∀ (acc : List WingStat × List Nat) (i : Nat),
      (i ∈ (ps.foldl (statsStep year?) acc).1.map WingStat.wing_id ↔
        i ∈ acc.1.map WingStat.wing_id ∨
          ∃ p ∈ ps, p.2.id = i ∧ matchesYear year? p.1 = true) := by
  induction ps with
  | nil => intro acc i; simp
  | cons p ps ih =>
    intro acc i
    rw [List.foldl_cons, ih, statsStep_fst]
    by_cases hmy : matchesYear year? p.1
    · rw [if_pos hmy]
      rw [bumpWing_mem_keys]
      constructor
      · rintro ((rfl | h) | h)
        · exact Or.inr ⟨p, List.mem_cons_self _ _, rfl, hmy⟩
        · exact Or.inl h
        · rcases h with ⟨q, hq, h1, h2⟩
          exact Or.inr ⟨q, List.mem_cons_of_mem _ hq, h1, h2⟩
      · rintro (h | ⟨q, hq, h1, h2⟩)
        · exact Or.inl (Or.inr h)
        · rcases List.mem_cons.mp hq with rfl | hq'
          · exact Or.inl (Or.inl h1.symm)
          · exact Or.inr ⟨q, hq', h1, h2⟩
    · rw [if_neg hmy]
      constructor
      · rintro (h | ⟨q, hq, h1, h2⟩)
        · exact Or.inl h
        · exact Or.inr ⟨q, List.mem_cons_of_mem _ hq, h1, h2⟩
      · rintro (h | ⟨q, hq, h1, h2⟩)
        · exact Or.inl h
        · rcases List.mem_cons.mp hq with rfl | hq'
          · exact absurd h2 (by simpa using hmy)
          · exact Or.inr ⟨q, hq', h1, h2⟩

theorem stats_foldl_keys_nodup (year? : Option Nat) (ps : List (Activity × Wing)) :
    ∀ (acc : List WingStat × List Nat), (acc.1.map WingStat.wing_id).Nodup →
      ((ps.foldl (statsStep year?) acc).1.map WingStat.wing_id).Nodup := by
  induction ps with
  | nil => intro acc h; exact h
  | cons p ps ih =>
    intro acc h
    rw [List.foldl_cons]
    apply ih
    rw [statsStep_fst]
    split
    · exact bumpWing_keys_nodup _ _ h
    · exact h

theorem stats_foldl_mem_src (year? : Option Nat) (ps : List (Activity × Wing)) :
    ∀ (acc : List WingStat × List Nat) (r : WingStat),
      r ∈ (ps.foldl (statsStep year?) acc).1 →
      r ∈ acc.1 ∨ ∃ p ∈ ps, matchesYear year? p.1 = true ∧ p.2.id = r.wing_id
        ∧ p.2.name = r.name ∧ p.2.slug = r.slug := by
  induction ps with
  | nil => intro acc r h; exact Or.inl h
  | cons p ps ih =>
    intro acc r h
    rw [List.foldl_cons] at h
    rcases ih _ r h with h' | ⟨q, hq, hm, h1, h2, h3⟩
    · rw [statsStep_fst] at h'
      by_cases hmy : matchesYear year? p.1
      · rw [if_pos hmy] at h'
        rcases bumpWing_mem_src _ _ _ h' with h'' | ⟨e1, e2, e3⟩
        · exact Or.inl h''
        · exact Or.inr ⟨p, List.mem_cons_self _ _, hmy, e1.symm, e2.symm, e3.symm⟩
      · rw [if_neg hmy] at h'
        exact Or.inl h'
    · exact Or.inr ⟨q, List.mem_cons_of_mem _ hq, hm, h1, h2, h3⟩

theorem mem_insertYear (ys : List Nat) (y y' : Nat) :
    y' ∈ insertYear ys y ↔ y' ∈ ys ∨ y' = y := by
  unfold insertYear
  split
  · next h =>
    constructor
    · exact Or.inl
    · rintro (h' | rfl)
      · exact h'
      · exact h
  · simp [List.mem_append]

theorem nodup_insertYear (ys : List Nat) (y : Nat) (h : ys.Nodup) :
    (insertYear ys y).Nodup := by
  unfold insertYear
  split
  · exact h
  · next hy =>
    rw [List.nodup_append]
    refine ⟨h, List.nodup_singleton _, ?_⟩
    intro x hx hx2
    have hxy : x = y := by simpa using hx2
    exact hy (hxy ▸ hx)

theorem stats_foldl_mem_years (year? : Option Nat) (ps : List (Activity × Wing)) :
    ∀ (acc : List WingStat × List Nat) (y : Nat),
      (y ∈ (ps.foldl (statsStep year?) acc).2 ↔
        y ∈ acc.2 ∨ ∃ p ∈ ps, p.1.activity_date.year = y) := by
  induction ps with
  | nil => intro acc y; simp
  | cons p ps ih =>
    intro acc y
    rw [List.foldl_cons, ih, statsStep_snd, mem_insertYear]
    constructor
    · rintro ((h | rfl) | ⟨q, hq, h1⟩)
      · exact Or.inl h
      · exact Or.inr ⟨p, List.mem_cons_self _ _, rfl⟩
      · exact Or.inr ⟨q, List.mem_cons_of_mem _ hq, h1⟩
    · rintro (h | ⟨q, hq, h1⟩)
      · exact Or.inl (Or.inl h)
      · rcases List.mem_cons.mp hq with rfl | hq'
        · exact Or.inl (Or.inr h1.symm)
        · exact Or.inr ⟨q, hq', h1⟩

theorem stats_foldl_years_nodup (year? : Option Nat) (ps : List (Activity × Wing)) :
    ∀ (acc : List WingStat × List Nat), acc.2.Nodup →
      (ps.foldl (statsStep year?) acc).2.Nodup := by
  induction ps with
  | nil => intro acc h; exact h
  | cons p ps ih =>
    intro acc h
    rw [List.foldl_cons]
    apply ih
    rw [statsStep_snd]
    exact nodup_insertYear _ _ h

theorem get_activity_statistics_statistics (year? : Option Nat)
    (aw : List (Activity × Wing)) :
    (get_activity_statistics year? aw).statistics =
      ((aw.foldl (statsStep year?) ([], [])).1.map toStatEntry).insertionSort statDescOrder :=
  rfl

theorem get_activity_statistics_years (year? : Option Nat)
    (aw : List (Activity × Wing)) :
    (get_activity_statistics year? aw).available_years =
      (aw.foldl (statsStep year?) ([], [])).2.insertionSort natDescOrder :=
  rfl

/-- C1: the aggregation returns one statistics entry per wing id owning at
least one filter-surviving activity, whose `activity_count` is the number of
that wing's surviving activities and whose name/slug come from such an
activity's wing, sorted by `activity_count` descending; `available_years`
is the duplicate-free descending list of the years of ALL activities
(unfiltered); and the year filter is echoed back. -/
theorem get_activity_statistics_spec (year? : Option Nat)
    (pairs : List (Activity × Wing)) :
    (((get_activity_statistics year? pairs).statistics.map StatEntry.wing_id).Nodup
      ∧ (∀ i : Nat,
          i ∈ (get_activity_statistics year? pairs).statistics.map StatEntry.wing_id ↔
            ∃ p ∈ pairs, p.2.id = i ∧ matchesYear year? p.1 = true)
      ∧ (∀ e ∈ (get_activity_statistics year? pairs).statistics,
          e.activity_count = matchingCount year? pairs e.wing_id
          ∧ ∃ p ∈ pairs, matchesYear year? p.1 = true ∧ p.2.id = e.wing_id
              ∧ p.2.name = e.wing_name ∧ p.2.slug = e.wing_slug))
    ∧ (get_activity_statistics year? pairs).statistics.Pairwise
        (fun a b => b.activity_count ≤ a.activity_count)
    ∧ (get_activity_statistics year? pairs).available_years.Nodup
    ∧ (get_activity_statistics year? pairs).available_years.Pairwise (fun a b => b ≤ a)
    ∧ (∀ y : Nat,
        y ∈ (get_activity_statistics year? pairs).available_years ↔
          ∃ p ∈ pairs, p.1.activity_date.year = y)
    ∧ (get_activity_statistics year? pairs).filtered_year = year? := by
  have hnodupraw : (((pairs.foldl (statsStep year?) ([], [])).1).map WingStat.wing_id).Nodup :=
    stats_foldl_keys_nodup year? pairs ([], []) (by simp)
  have hperm :
      (((((pairs.foldl (statsStep year?) ([], [])).1).map toStatEntry).insertionSort
          statDescOrder).map StatEntry.wing_id).Perm
        ((((pairs.foldl (statsStep year?) ([], [])).1).map toStatEntry).map StatEntry.wing_id) :=
    (List.perm_insertionSort statDescOrder _).map _
  have hmm : ((((pairs.foldl (statsStep year?) ([], [])).1).map toStatEntry).map
      StatEntry.wing_id) = ((pairs.foldl (statsStep year?) ([], [])).1).map WingStat.wing_id := by
    rw [List.map_map]; rfl
  refine ⟨⟨?_, ?_, ?_⟩, ?_, ?_, ?_, ?_, rfl⟩
  · rw [get_activity_statistics_statistics]
    exact hperm.nodup_iff.mpr (hmm ▸ hnodupraw)
  · intro i
    rw [get_activity_statistics_statistics]
    rw [hperm.mem_iff, hmm]
    have := stats_foldl_mem_keys year? pairs ([], []) i
    simpa using this
  · intro e he
    rw [get_activity_statistics_statistics] at he
    obtain ⟨r, hr, rfl⟩ := List.mem_map.mp ((List.mem_insertionSort statDescOrder).mp he)
    have hcount : r.count = matchingCount year? pairs r.wing_id := by
      have h1 : r.count = countOf (pairs.foldl (statsStep year?) ([], [])).1 r.wing_id :=
        countOf_mem _ hnodupraw r hr
      have h2 := stats_foldl_countOf year? pairs ([], []) r.wing_id
      simp only [countOf, Nat.zero_add] at h2
      exact h1.trans h2
    refine ⟨hcount, ?_⟩
    rcases stats_foldl_mem_src year? pairs ([], []) r hr with h | ⟨p, hp, hm, e1, e2, e3⟩
    · exact absurd h (List.not_mem_nil _)
    · exact ⟨p, hp, hm, e1, e2, e3⟩
  · rw [get_activity_statistics_statistics]
    exact List.sorted_insertionSort statDescOrder _
  · rw [get_activity_statistics_years]
    exact (List.perm_insertionSort natDescOrder _).nodup_iff.mpr
      (stats_foldl_years_nodup year? pairs ([], []) (by simp))
  · rw [get_activity_statistics_years]
    exact List.sorted_insertionSort natDescOrder _
  · intro y
    rw [get_activity_statistics_years, List.mem_insertionSort natDescOrder]
    have := stats_foldl_mem_years year? pairs ([], []) y
    simpa using this

/-- Witness for `get_activity_statistics_spec` at the spec's example —
activities `[{wing A, 2024}, {wing A, 2023}, {wing B, 2024}]`, filter 2024:
the wing-A entry counts exactly 1, and 2023 is still an available year. -/
theorem get_activity_statistics_spec_witness :
    ((⟨1, "Wing A", "a", 1⟩ : StatEntry).activity_count =
      matchingCount (some 2024)
        [(⟨11, 1, "t1", "d", ⟨2024, 5, 1⟩, none, none, none⟩, ⟨1, "a", "Wing A"⟩),
         (⟨12, 1, "t2", "d", ⟨2023, 5, 1⟩, none, none, none⟩, ⟨1, "a", "Wing A"⟩),
         (⟨13, 2, "t3", "d", ⟨2024, 5, 1⟩, none, none, none⟩, ⟨2, "b", "Wing B"⟩)]
        (⟨1, "Wing A", "a", 1⟩ : StatEntry).wing_id)
    ∧ 2023 ∈ (get_activity_statistics (some 2024)
        [(⟨11, 1, "t1", "d", ⟨2024, 5, 1⟩, none, none, none⟩, ⟨1, "a", "Wing A"⟩),
         (⟨12, 1, "t2", "d", ⟨2023, 5, 1⟩, none, none, none⟩, ⟨1, "a", "Wing A"⟩),
         (⟨13, 2, "t3", "d", ⟨2024, 5, 1⟩, none, none, none⟩, ⟨2, "b", "Wing B"⟩)]).available_years :=
  ⟨((get_activity_statistics_spec (some 2024) _).1.2.2 _ (by decide)).1,
    ((get_activity_statistics_spec (some 2024) _).2.2.2.2.1 2023).mpr
      ⟨(⟨12, 1, "t2", "d", ⟨2023, 5, 1⟩, none, none, none⟩, ⟨1, "a", "Wing A"⟩),
        by decide, rfl⟩⟩

/-- C8: every statistics entry counts at least one activity — a wing with no
activity surviving the year filter is omitted rather than listed with 0. -/
theorem statistics_counts_positive (year? : Option Nat)
    (pairs : List (Activity × Wing)) :
    ∀ e ∈ (get_activity_statistics year? pairs).statistics,
      1 ≤ e.activity_count
      ∧ ∃ p ∈ pairs, p.2.id = e.wing_id ∧ matchesYear year? p.1 = true := by
  intro e he
  rw [get_activity_statistics_statistics] at he
  obtain ⟨r, hr, rfl⟩ := List.mem_map.mp ((List.mem_insertionSort statDescOrder).mp he)
  have hnodupraw : (((pairs.foldl (statsStep year?) ([], [])).1).map WingStat.wing_id).Nodup :=
    stats_foldl_keys_nodup year? pairs ([], []) (by simp)
  have hcount : r.count = matchingCount year? pairs r.wing_id := by
    have h1 : r.count = countOf (pairs.foldl (statsStep year?) ([], [])).1 r.wing_id :=
      countOf_mem _ hnodupraw r hr
    have h2 := stats_foldl_countOf year? pairs ([], []) r.wing_id
    simp only [countOf, Nat.zero_add] at h2
    exact h1.trans h2
  rcases stats_foldl_mem_src year? pairs ([], []) r hr with h | ⟨p, hp, hm, e1, _, _⟩
  · exact absurd h (List.not_mem_nil _)
  · refine ⟨?_, p, hp, e1, hm⟩
    show 1 ≤ r.count
    rw [hcount]
    have hpf : p ∈ pairs.filter (fun q => q.2.id == r.wing_id && matchesYear year? q.1) :=
      List.mem_filter.mpr ⟨hp, by simp [e1, hm]⟩
    exact List.length_pos_of_mem hpf

/-- Witness for `statistics_counts_positive`: with one wing owning one 2024
activity and the filter set to 2024, the produced entry has count ≥ 1. -/
theorem statistics_counts_positive_witness :
    1 ≤ (⟨3, "Wing C", "c", 1⟩ : StatEntry).activity_count
    ∧ ∃ p ∈ [((⟨21, 3, "t", "d", ⟨2024, 2, 2⟩, none, none, none⟩ : Activity),
          (⟨3, "c", "Wing C"⟩ : Wing))],
        p.2.id = (⟨3, "Wing C", "c", 1⟩ : StatEntry).wing_id
        ∧ matchesYear (some 2024) p.1 = true :=
  statistics_counts_positive (some 2024)
    [(⟨21, 3, "t", "d", ⟨2024, 2, 2⟩, none, none, none⟩, ⟨3, "c", "Wing C"⟩)]
    ⟨3, "Wing C", "c", 1⟩ (by decide)

/-! ### Handler-level properties -/

theorem validate_image_file_eq (f : UploadFile) :
    validate_image_file f = if imageOk f then .ok () else .error (imageError f) := by
  unfold validate_image_file imageOk imageError
  by_cases h1 : f.filename = ""
  · simp [h1]
  · by_cases h2 : extOf f.filename ∈ ALLOWED_IMAGE_EXTENSIONS <;> simp [h1, h2]

theorem validate_all_images_eq (files : List UploadFile) :
    AdminAPI.validate_all_images files =
      match files.find? (fun f => !imageOk f) with
      | none => .ok ()
      | some f => .error (imageError f) := by
  induction files with
  | nil => rfl
  | cons f rest ih =>
    by_cases h : imageOk f
    · rw [AdminAPI.validate_all_images, validate_image_file_eq, if_pos h]
      simp [List.find?, h, ih]
    · rw [AdminAPI.validate_all_images, validate_image_file_eq,
        if_neg h]
      simp [List.find?, h]

theorem list_map_self {α : Type} (l : List α) (f : α → α)
    (h : ∀ x ∈ l, f x = x) : l.map f = l := by
  induction l with
  | nil => rfl
  | cons x xs ih =>
    rw [List.map_cons, h x (List.mem_cons_self _ _),
      ih (fun y hy => h y (List.mem_cons_of_mem _ hy))]

theorem create_photos_bulk_shape (db : Db) (photos : List Photo) :
    ((CRUDService.create_photos_bulk db photos).1.map
        (fun p => (p.wing_id, p.url, p.cloudinary_id)) =
      photos.map (fun p => (p.wing_id, p.url, p.cloudinary_id)))
    ∧ (CRUDService.create_photos_bulk db photos).2.photos =
        db.photos ++ (CRUDService.create_photos_bulk db photos).1
    ∧ (CRUDService.create_photos_bulk db photos).1.length = photos.length := by
  refine ⟨?_, rfl, ?_⟩
  · simp only [CRUDService.create_photos_bulk, List.map_map]
    have : ∀ q : Nat × Photo,
        ((fun p => (p.wing_id, p.url, p.cloudinary_id)) ∘
          (fun p : Nat × Photo =>
            { p.2 with id := db.next_photo_id + p.1, uploaded_at := db.clock })) q =
          ((fun p => (p.wing_id, p.url, p.cloudinary_id)) ∘ Prod.snd) q := by
      intro q; rfl
    rw [List.map_congr_left (fun q _ => this q), ← List.map_map,
      List.enum_map_snd]
  · simp [CRUDService.create_photos_bulk]

/-- C3 counterexample: in a batch holding an empty-named file followed by
`notes.txt` (whose extension is outside the allowed image set), the request
fails with a `ValidationError`, not a `FileUploadError`, so the claim's
error kind is wrong for this input (the all-or-nothing part survives). -/
theorem upload_photos_error_kind_counterexample :
    extOf "notes.txt" ∉ ALLOWED_IMAGE_EXTENSIONS
    ∧ (⟨"notes.txt"⟩ : UploadFile) ∈ [(⟨""⟩ : UploadFile), ⟨"notes.txt"⟩]
    ∧ (AdminAPI.upload_photos ⟨[⟨1, "tech", "Tech"⟩], [], [], 0, 0⟩ 1
        [⟨""⟩, ⟨"notes.txt"⟩] (fun _ _ => some [])).result =
      .error (.validation "File must have a filename")
    ∧ (AnvayaError.validation "File must have a filename").isFileUpload = false :=
  ⟨by decide, by decide, rfl, rfl⟩

/-- C3 (amended): given an existing target wing — if any supplied file fails
image validation, the whole request fails before any upload call and before
any Photo row is created, with a `FileUploadError` when the first invalid
file has a non-empty filename and a `ValidationError` otherwise; if every
file is valid and the bulk upload succeeds, exactly one Photo row per
uploaded asset is created in one bulk insert under the folder
`anvaya/{wing.slug}`; if the upload fails, the request fails with an
`ExternalServiceError` and no Photo row is created. -/
theorem upload_photos_all_or_nothing (db : Db) (wing_id : Nat)
    (files : List UploadFile) (wing : Wing)
    (upl : List UploadFile → String → Option (List UploadResult))
    (hw : CRUDService.get_wing_by_id db wing_id = some wing) :
    (∀ f, files.find? (fun g => !imageOk g) = some f →
      AdminAPI.upload_photos db wing_id files upl = ⟨.error (imageError f), db, []⟩
      ∧ (f.filename ≠ "" → (imageError f).isFileUpload = true)
      ∧ (f.filename = "" → (imageError f).isValidation = true))
    ∧ ((∀ f ∈ files, imageOk f = true) →
        (upl files ("anvaya/" ++ wing.slug) = none →
          AdminAPI.upload_photos db wing_id files upl =
            ⟨.error (.externalService "Cloudinary" "Failed to upload images"), db,
              [.uploadImagesBulk (files.map UploadFile.filename)
                ("anvaya/" ++ wing.slug)]⟩)
        ∧ (∀ us, upl files ("anvaya/" ++ wing.slug) = some us →
          (AdminAPI.upload_photos db wing_id files upl).result =
            .ok (CRUDService.create_photos_bulk db
              (us.map (fun u => (⟨0, wing_id, u.url, u.public_id, 0⟩ : Photo)))).1
          ∧ (AdminAPI.upload_photos db wing_id files upl).db.photos =
              db.photos ++ (CRUDService.create_photos_bulk db
                (us.map (fun u => (⟨0, wing_id, u.url, u.public_id, 0⟩ : Photo)))).1
          ∧ (CRUDService.create_photos_bulk db
              (us.map (fun u => (⟨0, wing_id, u.url, u.public_id, 0⟩ : Photo)))).1.map
                (fun p => (p.wing_id, p.url, p.cloudinary_id)) =
              us.map (fun u => (wing_id, u.url, u.public_id))
          ∧ (AdminAPI.upload_photos db wing_id files upl).effects =
              [.uploadImagesBulk (files.map UploadFile.filename) ("anvaya/" ++ wing.slug),
                .dbCreatePhotosBulk us.length])) := by
  constructor
  · intro f hf
    have hv : AdminAPI.validate_all_images files = .error (imageError f) := by
      rw [validate_all_images_eq, hf]
    refine ⟨?_, ?_, ?_⟩
    · simp [AdminAPI.upload_photos, hw, hv]
    · intro hne
      simp [imageError, hne, AnvayaError.isFileUpload]
    · intro he
      simp [imageError, he, AnvayaError.isValidation]
  · intro hall
    have hv : AdminAPI.validate_all_images files = .ok () := by
      rw [validate_all_images_eq]
      have : files.find? (fun g => !imageOk g) = none := by
        rw [List.find?_eq_none]
        intro g hg
        simp [hall g hg]
      rw [this]
    constructor
    · intro hnone
      simp [AdminAPI.upload_photos, hw, hv, hnone]
    · intro us hsome
      have hshape := create_photos_bulk_shape db
        (us.map (fun u => (⟨0, wing_id, u.url, u.public_id, 0⟩ : Photo)))
      refine ⟨?_, ?_, ?_, ?_⟩
      · simp [AdminAPI.upload_photos, hw, hv, hsome]
      · simp only [AdminAPI.upload_photos, hw, hv, hsome]
        exact hshape.2.1
      · rw [hshape.1]
        simp [List.map_map]
      · simp [AdminAPI.upload_photos, hw, hv, hsome, List.length_map]

/-- Witness for `upload_photos_all_or_nothing`: a one-wing store —
a `bad.txt` batch is rejected whole by a `FileUploadError` with nothing
uploaded or persisted, and a failing media host on a valid `a.jpg` batch
yields an `ExternalServiceError` after exactly one upload call, again with
the store unchanged. -/
theorem upload_photos_all_or_nothing_witness :
    AdminAPI.upload_photos ⟨[⟨1, "tech", "Tech"⟩], [], [], 0, 0⟩ 1 [⟨"bad.txt"⟩]
        (fun _ _ => some []) =
      ⟨.error (imageError ⟨"bad.txt"⟩), ⟨[⟨1, "tech", "Tech"⟩], [], [], 0, 0⟩, []⟩
    ∧ (imageError (⟨"bad.txt"⟩ : UploadFile)).isFileUpload = true
    ∧ AdminAPI.upload_photos ⟨[⟨1, "tech", "Tech"⟩], [], [], 0, 0⟩ 1 [⟨"a.jpg"⟩]
        (fun _ _ => none) =
      ⟨.error (.externalService "Cloudinary" "Failed to upload images"),
        ⟨[⟨1, "tech", "Tech"⟩], [], [], 0, 0⟩,
        [.uploadImagesBulk ["a.jpg"] "anvaya/tech"]⟩ :=
  ⟨((upload_photos_all_or_nothing ⟨[⟨1, "tech", "Tech"⟩], [], [], 0, 0⟩ 1 [⟨"bad.txt"⟩]
      ⟨1, "tech", "Tech"⟩ (fun _ _ => some []) (by decide)).1 ⟨"bad.txt"⟩ (by decide)).1,
    ((upload_photos_all_or_nothing ⟨[⟨1, "tech", "Tech"⟩], [], [], 0, 0⟩ 1 [⟨"bad.txt"⟩]
      ⟨1, "tech", "Tech"⟩ (fun _ _ => some []) (by decide)).1 ⟨"bad.txt"⟩
      (by decide)).2.1 (by decide),
    (((upload_photos_all_or_nothing ⟨[⟨1, "tech", "Tech"⟩], [], [], 0, 0⟩ 1 [⟨"a.jpg"⟩]
      ⟨1, "tech", "Tech"⟩ (fun _ _ => none) (by decide)).2 (by decide)).1 rfl)⟩

/-- C4: when the activity exists, a replacement PDF is supplied and valid,
and the media-host upload of the new PDF fails, the request aborts with an
`ExternalServiceError` and the store — including `report_url`,
`report_cloudinary_id` and every field supplied in the same request — is
fully unchanged. -/
theorem update_activity_pdf_upload_failure (db : Db) (activity_id : Nat)
    (a : Activity) (title description faculty_coordinator : Option String)
    (activity_date : Option Date) (f : UploadFile)
    (up : UploadFile → String → Option UploadResult) (ok : Bool)
    (ha : CRUDService.get_activity_by_id db activity_id = some a)
    (hf : f.filename ≠ "")
    (hv : validate_pdf_file f = .ok ())
    (hup : up f (AdminAPI.pdf_folder db a) = none) :
    (AdminAPI.update_activity db activity_id title description activity_date
        faculty_coordinator (some f) up ok).result =
      .error (.externalService "Cloudinary" "Failed to upload PDF report")
    ∧ (AdminAPI.update_activity db activity_id title description activity_date
        faculty_coordinator (some f) up ok).db = db := by
  constructor <;> simp [AdminAPI.update_activity, ha, hf, hv, hup]

/-- Witness for `update_activity_pdf_upload_failure`: an activity holding an
old report reference, updated with both a new title and a `new.pdf` whose
upload fails, is left byte-for-byte as it was. -/
theorem update_activity_pdf_upload_failure_witness :
    (AdminAPI.update_activity
        ⟨[⟨1, "w", "W"⟩],
          [⟨5, 1, "Old", "D", ⟨2024, 1, 1⟩, none, some "old-url", some "old-cid"⟩],
          [], 0, 0⟩ 5
        (some "New") none none none (some ⟨"new.pdf"⟩) (fun _ _ => none) true).result =
      .error (.externalService "Cloudinary" "Failed to upload PDF report")
    ∧ (AdminAPI.update_activity
        ⟨[⟨1, "w", "W"⟩],
          [⟨5, 1, "Old", "D", ⟨2024, 1, 1⟩, none, some "old-url", some "old-cid"⟩],
          [], 0, 0⟩ 5
        (some "New") none none none (some ⟨"new.pdf"⟩) (fun _ _ => none) true).db =
      ⟨[⟨1, "w", "W"⟩],
        [⟨5, 1, "Old", "D", ⟨2024, 1, 1⟩, none, some "old-url", some "old-cid"⟩],
        [], 0, 0⟩ :=
  update_activity_pdf_upload_failure
    ⟨[⟨1, "w", "W"⟩],
      [⟨5, 1, "Old", "D", ⟨2024, 1, 1⟩, none, some "old-url", some "old-cid"⟩],
      [], 0, 0⟩ 5
    ⟨5, 1, "Old", "D", ⟨2024, 1, 1⟩, none, some "old-url", some "old-cid"⟩
    (some "New") none none none ⟨"new.pdf"⟩ (fun _ _ => none) true
    (by decide) (by decide) rfl rfl

/-- C10: against a store with unique activity ids, an update request for an
existing activity that supplies no fields and no report file is a committed
no-op — `CRUDService.update_activity` is invoked with an empty field
mapping and the activity is returned with every field at its prior value,
the store unchanged. -/
theorem update_activity_empty_noop (db : Db) (activity_id : Nat) (a : Activity)
    (up : UploadFile → String → Option UploadResult) (ok : Bool)
    (hnd : (db.activities.map Activity.id).Nodup)
    (ha : CRUDService.get_activity_by_id db activity_id = some a) :
    AdminAPI.update_activity db activity_id none none none none none up ok =
      ⟨.ok a, db, [.dbUpdateActivity activity_id []]⟩ := by
  have ha' : db.activities.find? (fun x => x.id == activity_id) = some a := ha
  have hmem : a ∈ db.activities := List.mem_of_find?_eq_some ha'
  have haid : (a.id == activity_id) = true := by simpa using List.find?_some ha'
  have hrepl : db.activities.map (fun x => if x.id == activity_id then a else x) =
      db.activities := by
    apply list_map_self
    intro x hx
    by_cases h : (x.id == activity_id) = true
    · rw [if_pos h]
      have hxi : x.id = activity_id := by simpa using h
      have hai : a.id = activity_id := by simpa using haid
      exact List.inj_on_of_nodup_map hnd hmem hx (by rw [hai, hxi])
    · rw [if_neg (by simpa using h)]
  obtain ⟨w, acts, ph, np, ck⟩ := db
  simp only [AdminAPI.update_activity, ha, AdminAPI.commitActivityUpdate,
    CRUDService.update_activity]
  simp [applyUpdateData]
  simpa using hrepl

/-- Witness for `update_activity_empty_noop`: a one-activity store updated
with nothing supplied returns the activity unchanged with the store intact. -/
theorem update_activity_empty_noop_witness :
    AdminAPI.update_activity
        ⟨[], [⟨5, 1, "T", "D", ⟨2024, 1, 1⟩, some "F", none, none⟩], [], 0, 0⟩ 5
        none none none none none (fun _ _ => none) false =
      ⟨.ok ⟨5, 1, "T", "D", ⟨2024, 1, 1⟩, some "F", none, none⟩,
        ⟨[], [⟨5, 1, "T", "D", ⟨2024, 1, 1⟩, some "F", none, none⟩], [], 0, 0⟩,
        [.dbUpdateActivity 5 []]⟩ :=
  update_activity_empty_noop
    ⟨[], [⟨5, 1, "T", "D", ⟨2024, 1, 1⟩, some "F", none, none⟩], [], 0, 0⟩ 5
    ⟨5, 1, "T", "D", ⟨2024, 1, 1⟩, some "F", none, none⟩
    (fun _ _ => none) false (by decide) (by decide)

/-- C6: deleting an existing photo succeeds and removes the row no matter
how the best-effort media-host deletion fares (its outcome `ok` is
universally quantified), after issuing exactly one media-host delete call;
a missing photo id fails with `NotFoundError` with no media-host call and
no store change. -/
theorem delete_photo_best_effort (db : Db) (photo_id : Nat) (ok : Bool) :
    (CRUDService.get_photo_by_id db photo_id = none →
      AdminAPI.delete_photo db photo_id ok =
        ⟨.error (.notFound "Photo" (toString photo_id)), db, []⟩)
    ∧ (∀ p, CRUDService.get_photo_by_id db photo_id = some p →
        (AdminAPI.delete_photo db photo_id ok).result = .ok "Photo deleted successfully"
        ∧ (AdminAPI.delete_photo db photo_id ok).db.photos =
            db.photos.filter (fun q => !(q.id == photo_id))
        ∧ (AdminAPI.delete_photo db photo_id ok).effects =
            [.deleteMedia p.cloudinary_id "image", .dbDeletePhoto photo_id]) := by
  constructor
  · intro h
    simp [AdminAPI.delete_photo, h]
  · intro p h
    refine ⟨?_, ?_, ?_⟩ <;> simp [AdminAPI.delete_photo, h, CRUDService.delete_photo]

/-- Witness for `delete_photo_best_effort`: with the media-host deletion
failing (`ok = false`), the row is still removed and the request succeeds;
a missing id 4 is a not-found no-op. -/
theorem delete_photo_best_effort_witness :
    (AdminAPI.delete_photo ⟨[], [], [⟨9, 1, "u", "cid9", 3⟩], 10, 7⟩ 9 false).result =
      .ok "Photo deleted successfully"
    ∧ (AdminAPI.delete_photo ⟨[], [], [⟨9, 1, "u", "cid9", 3⟩], 10, 7⟩ 9 false).db.photos =
      ([⟨9, 1, "u", "cid9", 3⟩] : List Photo).filter (fun q => !(q.id == 9))
    ∧ AdminAPI.delete_photo ⟨[], [], [⟨9, 1, "u", "cid9", 3⟩], 10, 7⟩ 4 true =
      ⟨.error (.notFound "Photo" (toString 4)), ⟨[], [], [⟨9, 1, "u", "cid9", 3⟩], 10, 7⟩, []⟩ :=
  ⟨((delete_photo_best_effort ⟨[], [], [⟨9, 1, "u", "cid9", 3⟩], 10, 7⟩ 9 false).2
      ⟨9, 1, "u", "cid9", 3⟩ (by decide)).1,
    ((delete_photo_best_effort ⟨[], [], [⟨9, 1, "u", "cid9", 3⟩], 10, 7⟩ 9 false).2
      ⟨9, 1, "u", "cid9", 3⟩ (by decide)).2.1,
    (delete_photo_best_effort ⟨[], [], [⟨9, 1, "u", "cid9", 3⟩], 10, 7⟩ 4 true).1
      (by decide)⟩

/-- C5: a photo-listing request with `limit` outside `[1, 500]` is rejected
with a `ValidationError`, one with `offset < 0` is rejected with a
`ValidationError` (never clamped — the response is an error, not a page),
every `ValidationError` maps to status 422, and absent parameters default
to `limit = 100`, `offset = 0`. -/
theorem get_wing_photos_bounds (db : Db) (slug : String) (limit offset : Option Int) :
    (∀ l : Int, limit = some l → (l < 1 ∨ 500 < l) →
      PublicAPI.get_wing_photos db slug limit offset =
        .error (.validation "limit out of range"))
    ∧ (∀ o : Int, offset = some o → o < 0 →
        (PublicAPI.get_wing_photos db slug limit offset =
            .error (.validation "limit out of range")
          ∨ PublicAPI.get_wing_photos db slug limit offset =
            .error (.validation "offset out of range")))
    ∧ (∀ m : String, (AnvayaError.validation m).status_code = 422)
    ∧ (limit = none → offset = none →
        PublicAPI.get_wing_photos db slug limit offset =
          match CRUDService.get_wing_by_slug db slug with
          | none => .error (.notFound "Wing" slug)
          | some wing => .ok (CRUDService.get_photos_by_wing db wing.id 100 0)) := by
  refine ⟨?_, ?_, fun m => rfl, ?_⟩
  · rintro l rfl hl
    simp [PublicAPI.get_wing_photos, hl]
  · rintro o rfl ho
    by_cases hl : (limit.getD 100) < 1 ∨ 500 < limit.getD 100
    · left
      simp [PublicAPI.get_wing_photos, hl]
    · right
      simp [PublicAPI.get_wing_photos, hl, ho]
  · rintro rfl rfl
    cases h : CRUDService.get_wing_by_slug db slug <;>
      simp [PublicAPI.get_wing_photos, h]

/-- Witness for `get_wing_photos_bounds`: `limit = 501` is rejected with a
422 `ValidationError`, and a default request against an empty store resolves
the wing (absent) after passing validation with the defaults. -/
theorem get_wing_photos_bounds_witness :
    PublicAPI.get_wing_photos ⟨[], [], [], 0, 0⟩ "x" (some 501) none =
      .error (.validation "limit out of range")
    ∧ (AnvayaError.validation "limit out of range").status_code = 422
    ∧ PublicAPI.get_wing_photos ⟨[], [], [], 0, 0⟩ "x" none none =
      .error (.notFound "Wing" "x") :=
  ⟨(get_wing_photos_bounds ⟨[], [], [], 0, 0⟩ "x" (some 501) none).1 501 rfl (by decide),
    (get_wing_photos_bounds ⟨[], [], [], 0, 0⟩ "x" (some 501) none).2.2.1 "limit out of range",
    ((get_wing_photos_bounds ⟨[], [], [], 0, 0⟩ "x" none none).2.2.2 rfl rfl).trans rfl⟩

end Anvaya
